import Mathlib

/-!
# Verification of the RAG-Powered Sales Chatbot pipeline (`rag_app.py`)

Shallow embedding of the `AdvancedRAGPipeline` class from `src/rag_app.py`:
the query-routing entry point `answer_query`, the year extractor
`extract_year`, the result formatter `format_result`, the query logger
`log_query` / `get_query_log`, and the eight aggregation methods over the
sales dataframe.

Modelling conventions:
* Python strings are Lean `String`s; `str.lower()` / `str.strip()` are
  modelled on the character list (ASCII case folding, whitespace stripping —
  all trigger phrases and queries of interest are ASCII).
* The pandas dataframe is a `List Row`; `SALES` values are modelled as `Int`
  (no claim depends on float-specific behaviour).
* Python `dict` results (produced by `.to_dict()`) are association lists in
  insertion order.  Dict keys can be Python `int` (months, years) or `str`
  (names, countries): `DKey` keeps both, with Python's `str(key)` semantics.
* A Python expression that can raise is an `Except String` value, the error
  carrying the exception message; total Python code is a total Lean function.
* `datetime.now()` timestamps are wall-clock and not modelled; a log entry
  keeps the `query` and `response` columns written by `log_query`.
* Sorting: Python's `sorted(..., reverse=True)` and pandas `nlargest` are
  stable; they are modelled by a structural insertion sort (stable by
  construction) so that every concrete example evaluates by `rfl`/`decide`.
-/

namespace RagApp

/-! ## Basic string utilities (Python `lower`, `strip`, `in`, `ljust`) -/

/-- Is `needle` an infix of `haystack` (character lists)? -/
def listInfix (needle : List Char) : List Char → Bool
  | [] => needle.isEmpty
  | c :: t => needle.isPrefixOf (c :: t) || listInfix needle t

/-- Python `needle in haystack`: substring test. -/
def containsSub (haystack needle : String) : Bool :=
  listInfix needle.data haystack.data

/-- Python `s.lower().strip()` as performed at the top of `answer_query`
(line 38 of `rag_app.py`): ASCII lowercase every character, then drop
leading and trailing whitespace. -/
def normalize (q : String) : String :=
  String.mk ((((q.data.map Char.toLower).dropWhile Char.isWhitespace).reverse.dropWhile
    Char.isWhitespace).reverse)

/-- Python `s.ljust(n)`: pad on the right with spaces to width `n`. -/
def ljust (s : String) (n : Nat) : String :=
  s ++ String.mk (List.replicate (n - s.length) ' ')

/-! ## Stable sorting (Python `sorted`, pandas `nlargest`)

`List.insertionSort r` (Mathlib) inserts each element before the first
later element `y` with `r x y`, so it is a stable sort — matching the
stability guarantee of Python's `sorted` and of pandas
`nlargest(keep='first')` — and it is structural, so concrete examples
evaluate by `rfl`/`decide`. -/

/-- First-appearance deduplication (the key order underlying pandas
`groupby` group discovery and `value_counts`). -/
def dedupFA [BEq α] (l : List α) : List α :=
  l.foldl (fun acc x => if acc.contains x then acc else acc.concat x) []

/-! ## Dict keys and results -/

/-- A Python dict key as produced by the aggregations: either an `int`
(years, months) or a `str` (customer names, countries, statuses). -/
inductive DKey where
  | i (v : Nat)
  | s (v : String)
deriving DecidableEq, Repr

/-- Python `str(key)` as used by `format_result`. -/
def DKey.toStr : DKey → String
  | .i v => toString v
  | .s v => v

/-- Python `repr(key)` as it appears inside `str(some_dict)` (string keys
are quoted, int keys are not). -/
def DKey.pyRepr : DKey → String
  | .i v => toString v
  | .s v => "'" ++ v ++ "'"

/-- An aggregation result dict, in Python-dict insertion order. -/
abbrev DictResult := List (DKey × Int)

/-- The value held by the `response` variable of `answer_query`: either a
dict returned by an aggregation method, or a string (an error message or a
Groq fallback answer).  `rnone` models Python `None` for direct calls to
`format_result` (inside `answer_query` the fallback ensures the response is
never `None` by the time it is formatted). -/
inductive RResult where
  | rdict (d : DictResult)
  | rstr (s : String)
  | rnone
deriving DecidableEq, Repr

/-- Python `str(response)` as written into the log by `log_query`
(line 129): a dict prints as `{'k': v, ...}`, a string prints as itself. -/
def strOfResult : RResult → String
  | .rdict d =>
      "\x7b" ++ String.intercalate ", "
        (d.map (fun kv => kv.1.pyRepr ++ ": " ++ toString kv.2)) ++ "\x7d"
  | .rstr s => s
  | .rnone => "None"

/-! ## `format_result` (lines 101–115)

```python
def format_result(self, result):
    if isinstance(result, dict):
        sorted_result = dict(sorted(result.items(), key=lambda x: x[1], reverse=True))
        max_key_length = max(len(str(key)) for key in sorted_result.keys())
        formatted_lines = [f"{str(key).ljust(max_key_length)} : {value}"
                           for key, value in sorted_result.items()]
        return "Results:\n" + "\n".join(formatted_lines)
    return result or "No data found."
```

On an empty dict, `max()` over the empty generator raises `ValueError`;
this is modelled as the `Except.error` case.  A falsy non-dict result
(empty string, `None`) takes the `result or "No data found."` branch. -/

/-- Sort dict entries by value, descending, stably (Python
`sorted(result.items(), key=lambda x: x[1], reverse=True)`). -/
def sortByValueDesc (d : DictResult) : DictResult :=
  List.insertionSort (fun a b => b.2 ≤ a.2) d

def format_result : RResult → Except String String
  | .rdict d =>
      if d.isEmpty then
        .error "ValueError: max() arg is an empty sequence"
      else
        let sorted := sortByValueDesc d
        let maxKeyLength := (sorted.map (fun kv => kv.1.toStr.length)).foldl max 0
        .ok ("Results:\n" ++ String.intercalate "\n"
          (sorted.map (fun kv => ljust kv.1.toStr maxKeyLength ++ " : " ++ toString kv.2)))
  | .rstr s => .ok (if s = "" then "No data found." else s)
  | .rnone => .ok "No data found."

/-! ## `extract_year` (lines 75–77)

```python
def extract_year(self, query):
    year_match = re.search(r'\b(19\d{2}|20\d{2})\b', query)
    return int(year_match.group(1)) if year_match else None
```

`re.search` returns the match at the leftmost starting position.  At a
position `i` the pattern matches iff the four characters starting at `i`
are digits beginning `19` or `20`, with a word boundary on each side;
since digits are word characters, the boundary before holds iff `i = 0`
or the previous character is a non-word character, and symmetrically
after. -/

/-- Python regex word character (`\w`, ASCII): alphanumeric or underscore. -/
def isWordChar (c : Char) : Bool := c.isAlphanum || c == '_'

/-- Does `\b(19\d{2}|20\d{2})\b` match at position `i` of `l`? -/
def yearTokenAt (l : List Char) (i : Nat) : Bool :=
  match l[i]?, l[i+1]?, l[i+2]?, l[i+3]? with
  | some c0, some c1, some c2, some c3 =>
      ((c0 == '1' && c1 == '9') || (c0 == '2' && c1 == '0'))
        && c2.isDigit && c3.isDigit
        && (match i, l[i-1]? with
            | 0, _ => true
            | _+1, some c => !isWordChar c
            | _+1, none => true)
        && (match l[i+4]? with
            | some c => !isWordChar c
            | none => true)
  | _, _, _, _ => false

/-- The integer value of the four digits starting at position `i`. -/
def yearValueAt (l : List Char) (i : Nat) : Nat :=
  let d := fun j => (l[i+j]?.getD '0').toNat - '0'.toNat
  d 0 * 1000 + d 1 * 100 + d 2 * 10 + d 3

/-- Scan positions `i, i+1, ...` (up to the given fuel) for the first
regex match, as `re.search` does. -/
def firstYearIdxAux (l : List Char) (i : Nat) : Nat → Option Nat
  | 0 => none
  | fuel + 1 => if yearTokenAt l i then some i else firstYearIdxAux l (i+1) fuel

def firstYearIdx (l : List Char) : Option Nat :=
  firstYearIdxAux l 0 (l.length + 1)

def extract_year (query : String) : Option Nat :=
  (firstYearIdx query.data).map (yearValueAt query.data)

/-! ## The sales dataframe and the aggregation methods (lines 160–185)

A row of the preprocessed CSV, with the columns the aggregations read.
`ORDERDATE` is carried as its year and month (the only components the code
uses, via `.dt.year` / `.dt.month`). -/

structure Row where
  orderYear : Nat
  orderMonth : Nat
  ORDERNUMBER : Nat
  CUSTOMERNAME : String
  SALES : Int
  PRODUCTLINE : String
  COUNTRY : String
  STATUS : String
deriving DecidableEq, Repr

abbrev Df := List Row

/-- pandas `groupby(key)` discovers groups and sorts the keys ascending;
`agg` computes the aggregate from the rows of one group. -/
def groupAgg [BEq κ] (le : κ → κ → Bool) (key : Row → κ)
    (agg : List Row → Int) (df : Df) : List (κ × Int) :=
  (List.insertionSort (fun a b => le a b = true) (dedupFA (df.map key))).map
    (fun k => (k, agg (df.filter (fun r => key r == k))))

/-- pandas `value_counts()`: unique values in first-appearance order, with
counts, stably sorted by count descending. -/
def valueCounts (vals : List String) : DictResult :=
  sortByValueDesc ((dedupFA vals).map
    (fun v => (DKey.s v, (vals.filter (fun w => w == v)).length)))

/-- Lexicographic comparison on character lists (the code-point order
pandas uses to sort string group keys). -/
def charListLe : List Char → List Char → Bool
  | [], _ => true
  | _ :: _, [] => false
  | a :: as, b :: bs =>
      if a < b then true else if b < a then false else charListLe as bs

def natLe (a b : Nat) : Bool := decide (a ≤ b)
def strLe (a b : String) : Bool := charListLe a.data b.data

/-- `self.df.groupby(self.df['ORDERDATE'].dt.year)['ORDERNUMBER'].nunique().to_dict()` -/
def total_orders_by_year (df : Df) : DictResult :=
  (groupAgg natLe (·.orderYear)
    (fun rows => (dedupFA (rows.map (·.ORDERNUMBER))).length) df).map
    (fun kv => (DKey.i kv.1, kv.2))

/-- `self.df['CUSTOMERNAME'].value_counts().head(1).to_dict()` -/
def customer_with_most_orders (df : Df) : DictResult :=
  (valueCounts (df.map (·.CUSTOMERNAME))).take 1

/-- `self.df.groupby('CUSTOMERNAME')['SALES'].sum().nlargest(top_n).to_dict()`
(`nlargest` = stable sort by value descending, take `top_n`). -/
def top_customers_by_sales (df : Df) (top_n : Nat := 5) : DictResult :=
  (sortByValueDesc ((groupAgg strLe (·.CUSTOMERNAME)
    (fun rows => (rows.map (·.SALES)).foldl (· + ·) 0) df).map
    (fun kv => (DKey.s kv.1, kv.2)))).take top_n

/-- `self.df.groupby('PRODUCTLINE')['SALES'].sum().to_dict()` -/
def product_line_sales (df : Df) : DictResult :=
  (groupAgg strLe (·.PRODUCTLINE)
    (fun rows => (rows.map (·.SALES)).foldl (· + ·) 0) df).map
    (fun kv => (DKey.s kv.1, kv.2))

/-- `self.df.groupby('COUNTRY')['SALES'].sum().to_dict()` -/
def sales_by_country (df : Df) : DictResult :=
  (groupAgg strLe (·.COUNTRY)
    (fun rows => (rows.map (·.SALES)).foldl (· + ·) 0) df).map
    (fun kv => (DKey.s kv.1, kv.2))

/-- `self.df['STATUS'].value_counts().to_dict()` -/
def order_status_distribution (df : Df) : DictResult :=
  valueCounts (df.map (·.STATUS))

/-- `self.df['ORDERDATE'].dt.year.max()` (on the datasets of interest the
dataframe is nonempty; on an empty frame pandas yields `NaN`, and filtering
on `year == NaN` selects nothing — returning `0` here selects nothing as
well, since no row carries year `0`). -/
def maxYear (df : Df) : Nat :=
  (df.map (·.orderYear)).foldl max 0

/-- Lines 178–182:
```python
def orders_by_month_wrapper(self, year=None):
    if year is None:
        year = self.df['ORDERDATE'].dt.year.max()
    yearly_data = self.df[self.df['ORDERDATE'].dt.year == year]
    return yearly_data.groupby(yearly_data['ORDERDATE'].dt.month)['ORDERNUMBER'].count().to_dict()
```
-/
def orders_by_month_wrapper (df : Df) (year : Option Nat := none) : DictResult :=
  let y := year.getD (maxYear df)
  let yearly_data := df.filter (fun r => r.orderYear == y)
  (groupAgg natLe (·.orderMonth) (fun rows => rows.length) yearly_data).map
    (fun kv => (DKey.i kv.1, kv.2))

/-- `self.df.groupby('COUNTRY')['CUSTOMERNAME'].nunique().to_dict()` -/
def customers_by_country (df : Df) : DictResult :=
  (groupAgg strLe (·.COUNTRY)
    (fun rows => (dedupFA (rows.map (·.CUSTOMERNAME))).length) df).map
    (fun kv => (DKey.s kv.1, kv.2))

/-! ## Query routing (lines 42–65) -/

/-- The eight bound aggregation methods, in the order of `query_patterns`. -/
inductive MethodId where
  | totalOrdersByYear
  | customerWithMostOrders
  | topCustomersBySales
  | productLineSales
  | salesByCountry
  | orderStatusDistribution
  | ordersByMonthWrapper
  | customersByCountry
deriving DecidableEq, Repr

/-- The fixed `query_patterns` list of lines 42–51: trigger phrases paired
with the bound method. -/
def query_patterns : List (List String × MethodId) :=
  [ (["total orders", "number of orders"], .totalOrdersByYear),
    (["top customer", "most orders"], .customerWithMostOrders),
    (["top customers", "customers by sales"], .topCustomersBySales),
    (["product line", "sales by product"], .productLineSales),
    (["sales by country", "country sales"], .salesByCountry),
    (["order status", "status distribution"], .orderStatusDistribution),
    (["orders by month", "monthly orders"], .ordersByMonthWrapper),
    (["customers by country", "country customers"], .customersByCountry) ]

/-- `any(p in query for p in pattern_obj['pattern'])` (line 56). -/
def ruleMatches (query : String) (rule : List String × MethodId) : Bool :=
  rule.1.any (fun p => containsSub query p)

/-- An execution behaviour for the bound methods: the dict a method call
returns, or the message of the exception it raises.  The argument is the
optional `year` (only `orders_by_month_wrapper` takes one). -/
abbrev Exec := MethodId → Option Nat → Except String DictResult

/-- The methods as they run against a dataframe: total functions, so every
call succeeds (the pandas aggregations do not raise on a well-formed
frame). -/
def runMethod (df : Df) : MethodId → Option Nat → DictResult
  | .totalOrdersByYear, _ => total_orders_by_year df
  | .customerWithMostOrders, _ => customer_with_most_orders df
  | .topCustomersBySales, _ => top_customers_by_sales df
  | .productLineSales, _ => product_line_sales df
  | .salesByCountry, _ => sales_by_country df
  | .orderStatusDistribution, _ => order_status_distribution df
  | .ordersByMonthWrapper, y => orders_by_month_wrapper df y
  | .customersByCountry, _ => customers_by_country df

def execOf (df : Df) : Exec := fun m y => .ok (runMethod df m y)

/-- The argument a matching rule's method is called with (lines 58–62):
only when the (normalized) query contains the literal substring `"year"`
AND the method is `orders_by_month_wrapper` is `extract_year` consulted,
and its result passed when truthy. -/
def yearArgFor (query : String) (m : MethodId) : Option Nat :=
  if containsSub query "year" && (m == MethodId.ordersByMonthWrapper) then
    extract_year query
  else
    none

/-- The `for pattern_obj in query_patterns:` loop of lines 54–65, run over
a rule list.  On a match the method is called inside `try`: a successful
call `break`s with its dict; a raising call stores the error string in
`response` and the loop CONTINUES with the remaining rules (there is no
`break` in the `except` branch), a later match overwriting `response`. -/
def matchLoop (exec : Exec) (query : String) : List (List String × MethodId) → Option RResult
  | [] => none
  | rule :: rest =>
      if ruleMatches query rule then
        match exec rule.2 (yearArgFor query rule.2) with
        | .ok d => some (.rdict d)
        | .error e =>
            match matchLoop exec query rest with
            | some r => some r
            | none => some (.rstr ("Error processing query: " ++ e))
      else matchLoop exec query rest

/-- The value of `response` after the pattern loop (lines 54–65): `none`
exactly when no rule matched. -/
def matchResponse (exec : Exec) (query : String) : Option RResult :=
  matchLoop exec query query_patterns

/-! ## Logging (lines 117–133) and `answer_query` (lines 36–73) -/

/-- One row appended to `logs/query_log.csv` by `log_query` (the
wall-clock `timestamp` column is not modelled). -/
structure LogEntry where
  query : String
  response : String
deriving DecidableEq, Repr

/-- `answer_query` (lines 36–73), with the Groq fallback as an oracle
`groq` (`generate_groq_response` catches its own exceptions and always
returns a string, line 98–99).  Returns the value of
`format_result(response)` — `Except.error` when formatting raises — and
the log after the `log_query` call, which happens BEFORE formatting and
records `str(response)`. -/
def answer_query (exec : Exec) (groq : String → String) (log : List LogEntry)
    (query0 : String) : Except String String × List LogEntry :=
  let query := normalize query0
  let response : RResult :=
    match matchResponse exec query with
    | some r => r
    | none => .rstr (groq query)
  let log1 := log ++ [⟨query, strOfResult response⟩]
  (format_result response, log1)

/-- The `response` value an `answer_query` call formats and logs. -/
def responseOf (exec : Exec) (groq : String → String) (query0 : String) : RResult :=
  match matchResponse exec (normalize query0) with
  | some r => r
  | none => .rstr (groq (normalize query0))

/-! ## `get_query_log` (lines 135–144)

`__init__` (lines 14–25) never assigns `self.query_log` (its comment says
"Initialize query log as a DataFrame" but the body only creates the
`logs` directory), and no other method assigns it either; the attribute is
modelled as an `Option`, `none` meaning "never assigned", and reading it
then raises `AttributeError`. -/

/-- The `self.query_log` attribute as left by `__init__`: never assigned. -/
def init_query_log : Option (List LogEntry) := none

/-- Lines 135–144: return the sentinel on an empty log dataframe, else the
CSV text; accessing the missing attribute raises `AttributeError`. -/
def get_query_log (query_log : Option (List LogEntry)) : Except String String :=
  match query_log with
  | none => .error "AttributeError: 'AdvancedRAGPipeline' object has no attribute 'query_log'"
  | some entries =>
      if entries.isEmpty then
        .ok "timestamp,query,response\nNo queries logged yet."
      else
        .ok ("timestamp,query,response\n" ++ String.intercalate "\n"
          (entries.map (fun e => e.query ++ "," ++ e.response)))

/-! ## Helper lemmas about the routing loop -/

/-- If no rule of `l` matches, the pattern loop leaves `response = None`. -/
theorem matchLoop_eq_none_of_no_match (exec : Exec) (q : String) :
    ∀ l : List (List String × MethodId),
      (∀ r ∈ l, ruleMatches q r = false) → matchLoop exec q l = none := by
  intro l
  induction l with
  | nil => intro _; rfl
  | cons r rest ih =>
      intro h
      have hr : ruleMatches q r = false := h r (List.mem_cons_self r rest)
      have hrest : ∀ r' ∈ rest, ruleMatches q r' = false :=
        fun r' hr' => h r' (List.mem_cons_of_mem r hr')
      simp only [matchLoop, hr, Bool.false_eq_true, if_false]
      exact ih hrest

/-- If the first matching rule of `l` is `rule` and its method call
succeeds with dict `d`, the loop `break`s there with `d` as the response:
no later rule is consulted. -/
theorem matchLoop_of_find?_ok (exec : Exec) (q : String) :
    ∀ (l : List (List String × MethodId)) (rule : List String × MethodId) (d : DictResult),
      l.find? (ruleMatches q) = some rule →
      exec rule.2 (yearArgFor q rule.2) = .ok d →
      matchLoop exec q l = some (.rdict d) := by
  intro l
  induction l with
  | nil => intro rule d h _; simp at h
  | cons r rest ih =>
      intro rule d h h2
      by_cases hm : ruleMatches q r = true
      · rw [List.find?_cons_of_pos rest hm] at h
        have hr : r = rule := by injection h
        subst hr
        simp only [matchLoop, hm, if_true, h2]
      · rw [List.find?_cons_of_neg rest hm] at h
        simp only [matchLoop, hm, Bool.false_eq_true, if_false]
        exact ih rule d h h2

/-- If exactly one rule of `l` matches and its method call raises `e`,
the loop finishes with `response` holding the error string. -/
theorem matchLoop_of_single_error (exec : Exec) (q : String) :
    ∀ (l : List (List String × MethodId)) (rule : List String × MethodId) (e : String),
      l.filter (ruleMatches q) = [rule] →
      exec rule.2 (yearArgFor q rule.2) = .error e →
      matchLoop exec q l = some (.rstr ("Error processing query: " ++ e)) := by
  intro l
  induction l with
  | nil => intro rule e h _; simp at h
  | cons r rest ih =>
      intro rule e h h2
      by_cases hm : ruleMatches q r = true
      · rw [List.filter_cons_of_pos hm] at h
        have hr : r = rule := by injection h
        have hrest : rest.filter (ruleMatches q) = [] := by injection h
        subst hr
        have hnone : matchLoop exec q rest = none :=
          matchLoop_eq_none_of_no_match exec q rest
            (fun r' hr' => by
              have := List.filter_eq_nil_iff.mp hrest r' hr'
              simpa using this)
        simp only [matchLoop, hm, if_true, h2, hnone]
      · rw [List.filter_cons_of_neg hm] at h
        simp only [matchLoop, hm, Bool.false_eq_true, if_false]
        exact ih rule e h h2

/-- The descending-by-value sort used by `format_result` and `nlargest`
really is sorted: values are pairwise descending. -/
theorem sortByValueDesc_sorted (d : DictResult) :
    (sortByValueDesc d).Pairwise (fun a b => b.2 ≤ a.2) := by
  haveI : IsTotal (DKey × Int) (fun a b => b.2 ≤ a.2) := ⟨fun a b => le_total b.2 a.2⟩
  haveI : IsTrans (DKey × Int) (fun a b => b.2 ≤ a.2) :=
    ⟨fun _ _ _ hab hbc => le_trans hbc hab⟩
  exact List.sorted_insertionSort _ d

/-- Sorting does not change the number of dict entries. -/
theorem sortByValueDesc_length (d : DictResult) :
    (sortByValueDesc d).length = d.length :=
  List.length_insertionSort _ d

/-- `"Error processing query: " + e` is never the empty string, so
`format_result` returns it unchanged (the `result or "No data found."`
branch keeps a truthy string). -/
theorem error_msg_ne_empty (e : String) : ("Error processing query: " ++ e) ≠ "" := by
  intro h
  have h1 := congrArg String.length h
  rw [String.length_append] at h1
  have h2 : ("Error processing query: " : String).length = 24 := rfl
  have h3 : ("" : String).length = 0 := rfl
  rw [h2, h3] at h1
  omega

theorem format_result_error_msg (e : String) :
    format_result (.rstr ("Error processing query: " ++ e)) =
      .ok ("Error processing query: " ++ e) := by
  simp only [format_result, if_neg (error_msg_ne_empty e)]

/-! ## Helper lemmas about `extract_year` -/

/-- A regex match needs four characters, so no match starts beyond
`l.length - 4`. -/
theorem yearTokenAt_length {l : List Char} {i : Nat}
    (h : yearTokenAt l i = true) : i + 4 ≤ l.length := by
  by_contra hlt
  have h3 : l[i+3]? = none := by
    apply List.getElem?_eq_none
    omega
  unfold yearTokenAt at h
  rw [h3] at h
  cases l[i]? <;> cases l[i+1]? <;> cases l[i+2]? <;> simp at h

/-- Behaviour of the left-to-right scan: a hit is the first position at or
after `i` where the pattern matches; a miss means no position in the
scanned window matches. -/
theorem firstYearIdxAux_spec (l : List Char) :
    ∀ (fuel i : Nat),
      (∀ j, firstYearIdxAux l i fuel = some j →
        i ≤ j ∧ yearTokenAt l j = true ∧
          ∀ k, i ≤ k → k < j → yearTokenAt l k = false) ∧
      (firstYearIdxAux l i fuel = none →
        ∀ k, i ≤ k → k < i + fuel → yearTokenAt l k = false) := by
  intro fuel
  induction fuel with
  | zero =>
      intro i
      constructor
      · intro j h; simp [firstYearIdxAux] at h
      · intro _ k hik hk; omega
  | succ fuel ih =>
      intro i
      by_cases ht : yearTokenAt l i = true
      · constructor
        · intro j h
          simp only [firstYearIdxAux, ht, if_true] at h
          have hj : j = i := by injection h; omega
          refine ⟨by omega, by rw [hj]; exact ht, fun k hik hk => absurd hik (by omega)⟩
        · intro h
          simp [firstYearIdxAux, ht] at h
      · have ht' : yearTokenAt l i = false := by
          cases hv : yearTokenAt l i
          · rfl
          · exact absurd hv ht
        constructor
        · intro j h
          simp only [firstYearIdxAux, ht, Bool.false_eq_true, if_false] at h
          obtain ⟨hij, htj, hmin⟩ := (ih (i+1)).1 j h
          refine ⟨by omega, htj, fun k hik hk => ?_⟩
          by_cases hki : k = i
          · subst hki; exact ht'
          · exact hmin k (by omega) hk
        · intro h k hik hk
          simp only [firstYearIdxAux, ht, Bool.false_eq_true, if_false] at h
          by_cases hki : k = i
          · subst hki; exact ht'
          · exact (ih (i+1)).2 h k (by omega) (by omega)

/-! ## Fixtures used in counterexamples and witnesses

`df0` is a three-row sales dataframe: one order in January 2003, two
orders in 2004 (January and February); `groqStub` is an arbitrary fallback
oracle (never consulted in the scenarios below); `execErr` is a method
behaviour under which `product_line_sales` raises and `sales_by_country`
succeeds. -/

def df0 : Df :=
  [ ⟨2003, 1, 10, "Alpha", 100, "Classic Cars", "France", "Shipped"⟩,
    ⟨2004, 1, 11, "Alpha", 200, "Classic Cars", "USA", "Shipped"⟩,
    ⟨2004, 2, 12, "Beta", 900, "Motorcycles", "USA", "Shipped"⟩ ]

def groqStub : String → String := fun _ => "LLM answer"

def execErr : Exec := fun m _ =>
  match m with
  | .productLineSales => .error "boom"
  | .salesByCountry => .ok [(.s "France", 10)]
  | _ => .ok []

/-! ## Claim C1 — year extraction for the orders-by-month rule -/

/-- C1 (counterexample): the query `"orders by month in 2003"` does NOT
restrict counting to order-date year 2003.  It contains a 4-digit year
token but not the literal substring `"year"`, so line 58's gate
(`if 'year' in query and ...`) fails and `orders_by_month_wrapper` is
called with no argument: on `df0` (max year 2004) the response counts the
two 2004 orders, which differs from the 2003-restricted count. -/
theorem orders_by_month_in_2003_cex :
    responseOf (execOf df0) groqStub "orders by month in 2003" =
      .rdict [(.i 1, 1), (.i 2, 1)] ∧
    orders_by_month_wrapper df0 (some 2003) = [(.i 1, 1)] ∧
    ([((DKey.i 1 : DKey), (1 : Int)), (.i 2, 1)] : DictResult) ≠
      orders_by_month_wrapper df0 (some 2003) :=
  ⟨rfl, rfl, by decide⟩

/-- C1 (amended): for every query routed to the orders-by-month rule, the
year argument is extracted exactly when the query contains the literal
substring `"year"` (the extracted token then restricting the count to rows
of that order-date year); otherwise the call is made with no year and the
dataset's maximum year is used.  The second conjunct exhibits the
restriction: with an explicit year the count groups only the rows whose
order-date year equals it; the third shows the no-argument call defaults
to the maximum year. -/
theorem orders_by_month_year_gate (df : Df) (q : String)
    (h : query_patterns.find? (ruleMatches q) =
      some (["orders by month", "monthly orders"], .ordersByMonthWrapper)) :
    matchResponse (execOf df) q =
      some (.rdict (orders_by_month_wrapper df
        (if containsSub q "year" then extract_year q else none))) ∧
    (∀ y, orders_by_month_wrapper df (some y) =
      (groupAgg natLe (fun r => r.orderMonth) (fun rows => rows.length)
        (df.filter (fun r => r.orderYear == y))).map (fun kv => (DKey.i kv.1, kv.2))) ∧
    orders_by_month_wrapper df none = orders_by_month_wrapper df (some (maxYear df)) := by
  refine ⟨?_, fun y => rfl, rfl⟩
  apply matchLoop_of_find?_ok (execOf df) q query_patterns _ _ h
  simp [execOf, runMethod, yearArgFor]

/-- C1 witness: `"orders by month year 2003"` passes the gate, extracts
2003 and counts only the single January-2003 order of `df0`. -/
theorem orders_by_month_year_gate_witness :
    query_patterns.find? (ruleMatches "orders by month year 2003") =
      some (["orders by month", "monthly orders"], .ordersByMonthWrapper) ∧
    extract_year "orders by month year 2003" = some 2003 ∧
    orders_by_month_wrapper df0 (some 2003) = [(.i 1, 1)] ∧
    matchResponse (execOf df0) "orders by month year 2003" =
      some (.rdict (orders_by_month_wrapper df0
        (if containsSub "orders by month year 2003" "year" then
          extract_year "orders by month year 2003" else none))) :=
  ⟨rfl, rfl, rfl, (orders_by_month_year_gate df0 "orders by month year 2003" rfl).1⟩

/-! ## Claim C2 — first matching rule wins -/

/-- C2: for every query, if the first rule of `query_patterns` whose
trigger set matches (as a substring of the normalized query) is `rule`,
then the response is exactly that rule's bound method applied to its
argument — matching stops there and no later rule contributes.  (The
embedded methods are total, as the pandas aggregations are on a well-formed
frame, so the `break` on line 63 is always reached at the first match.) -/
theorem first_matching_rule_answers (df : Df) (q : String)
    (rule : List String × MethodId)
    (h : query_patterns.find? (ruleMatches q) = some rule) :
    matchResponse (execOf df) q =
      some (.rdict (runMethod df rule.2 (yearArgFor q rule.2))) :=
  matchLoop_of_find?_ok (execOf df) q query_patterns rule _ h rfl

/-- C2 witness: a query containing both `"product line"` (rule 3) and
`"sales by country"` (rule 4) resolves to the product-line rule. -/
theorem first_matching_rule_answers_witness :
    ruleMatches "product line and sales by country"
      (["product line", "sales by product"], .productLineSales) = true ∧
    ruleMatches "product line and sales by country"
      (["sales by country", "country sales"], .salesByCountry) = true ∧
    query_patterns.find? (ruleMatches "product line and sales by country") =
      some (["product line", "sales by product"], .productLineSales) ∧
    matchResponse (execOf df0) "product line and sales by country" =
      some (.rdict (product_line_sales df0)) :=
  ⟨rfl, rfl, rfl, first_matching_rule_answers df0 "product line and sales by country" _ rfl⟩

/-! ## Claim C3 — "top customers" is shadowed by the "top customer" rule -/

/-- C3 (counterexample): the query `"top customers"` contains the trigger
`"top customer"` of the EARLIER rule (line 44), so it is answered by
`customer_with_most_orders` — a single customer with an order COUNT — not
by the top-5-by-sales aggregation.  On `df0`, Alpha has 2 orders but only
300 of summed sales, while `top_customers_by_sales` would rank Beta (900)
first. -/
theorem top_customers_trigger_shadowed_cex :
    responseOf (execOf df0) groqStub "top customers" = .rdict [(.s "Alpha", 2)] ∧
    customer_with_most_orders df0 = [(.s "Alpha", 2)] ∧
    top_customers_by_sales df0 5 = [(.s "Beta", 900), (.s "Alpha", 300)] ∧
    ([((DKey.s "Alpha" : DKey), (2 : Int))] : DictResult) ≠ top_customers_by_sales df0 5 :=
  ⟨rfl, rfl, rfl, by decide⟩

/-- C3 (amended): a query containing `"customers by sales"` and none of
the earlier triggers (`"total orders"`, `"number of orders"`,
`"top customer"`, `"most orders"`) is answered by
`top_customers_by_sales`, whose result has at most 5 entries, sorted by
summed sales descending.  (A query containing `"top customers"`
necessarily contains `"top customer"` and is answered by the earlier
rule instead.) -/
theorem customers_by_sales_routes_top5 (df : Df) (q : String)
    (h1 : containsSub q "customers by sales" = true)
    (h2 : containsSub q "total orders" = false)
    (h3 : containsSub q "number of orders" = false)
    (h4 : containsSub q "top customer" = false)
    (h5 : containsSub q "most orders" = false) :
    matchResponse (execOf df) q = some (.rdict (top_customers_by_sales df 5)) ∧
    (top_customers_by_sales df 5).length ≤ 5 ∧
    ((top_customers_by_sales df 5).map (fun kv => kv.2)).Pairwise (fun a b => b ≤ a) := by
  refine ⟨?_, ?_, ?_⟩
  · have hfind : query_patterns.find? (ruleMatches q) =
        some (["top customers", "customers by sales"], .topCustomersBySales) := by
      simp [query_patterns, List.find?, ruleMatches, h1, h2, h3, h4, h5]
    exact matchLoop_of_find?_ok (execOf df) q query_patterns _
      (top_customers_by_sales df 5) hfind rfl
  · unfold top_customers_by_sales
    exact List.length_take_le 5 _
  · unfold top_customers_by_sales
    rw [List.pairwise_map]
    exact List.Pairwise.sublist (List.take_sublist 5 _) (sortByValueDesc_sorted _)

/-- C3 witness: the plain query `"customers by sales"` satisfies the
amended hypotheses and gets the top-5 aggregation. -/
theorem customers_by_sales_routes_top5_witness :
    containsSub "customers by sales" "customers by sales" = true ∧
    matchResponse (execOf df0) "customers by sales" =
      some (.rdict (top_customers_by_sales df0 5)) :=
  ⟨rfl, (customers_by_sales_routes_top5 df0 "customers by sales" rfl rfl rfl rfl rfl).1⟩

/-! ## Claim C4 — `answer_query` can raise -/

/-- C4 (code bug): the query `"orders by month year 1999"` against `df0`
(whose orders all lie in 2003–2004) makes `orders_by_month_wrapper` return
an empty dict; `format_result` is called OUTSIDE the `try` of lines 57–65
and its `max()` over the empty key set raises `ValueError`, which escapes
`answer_query` to the caller. -/
theorem answer_query_raises_on_empty_month_group :
    (answer_query (execOf df0) groqStub [] "orders by month year 1999").1 =
      .error "ValueError: max() arg is an empty sequence" ∧
    orders_by_month_wrapper df0 (some 1999) = [] :=
  ⟨rfl, rfl⟩

/-! ## Claim C5 — exceptions and the fallback -/

/-- C5 (counterexample): the `except` branch of lines 64–65 does not
`break`, so after an exception the loop CONTINUES.  The query
`"product line sales by country"` matches the product-line rule, whose
method raises under `execErr`; the later sales-by-country rule also
matches and its dict overwrites the error message, so the exception
message is NOT the query's result. -/
theorem raising_rule_overridden_by_later_match_cex :
    matchResponse execErr "product line sales by country" =
      some (.rdict [(.s "France", 10)]) ∧
    (some (RResult.rdict [(DKey.s "France", 10)]) : Option RResult) ≠
      some (.rstr "Error processing query: boom") :=
  ⟨rfl, by decide⟩

/-- C5 (amended): when the only matching rule's method raises `e`, the
response is the string `"Error processing query: " + e`; it is still
logged (as the `response` column) and formatted (a non-empty string
formats to itself), and the Groq fallback is never consulted — the second
conjunct holds for EVERY fallback oracle `groq`.  (When a later rule also
matches, scanning continues and that rule's result overwrites the error.) -/
theorem single_matching_rule_error (exec : Exec) (q : String)
    (rule : List String × MethodId) (e : String)
    (h1 : query_patterns.filter (ruleMatches q) = [rule])
    (h2 : exec rule.2 (yearArgFor q rule.2) = .error e) :
    matchResponse exec q = some (.rstr ("Error processing query: " ++ e)) ∧
    ∀ (groq : String → String) (log : List LogEntry) (q0 : String),
      normalize q0 = q →
      answer_query exec groq log q0 =
        (.ok ("Error processing query: " ++ e),
         log ++ [⟨q, "Error processing query: " ++ e⟩]) := by
  have hm : matchResponse exec q = some (.rstr ("Error processing query: " ++ e)) :=
    matchLoop_of_single_error exec q query_patterns rule e h1 h2
  refine ⟨hm, fun groq log q0 hq => ?_⟩
  simp only [answer_query, hq, hm]
  rw [format_result_error_msg]
  rfl

/-- C5 witness: `"show product line stats"` matches only the product-line
rule; under `execErr` its method raises `"boom"` and the error string is
the response. -/
theorem single_matching_rule_error_witness :
    query_patterns.filter (ruleMatches "show product line stats") =
      [(["product line", "sales by product"], .productLineSales)] ∧
    execErr .productLineSales none = .error "boom" ∧
    matchResponse execErr "show product line stats" =
      some (.rstr ("Error processing query: " ++ "boom")) :=
  ⟨rfl, rfl, (single_matching_rule_error execErr "show product line stats" _ "boom" rfl rfl).1⟩

/-! ## Claim C6 — the formatter on empty/falsy results -/

/-- C6 (code bug): an EMPTY MAPPING takes the `isinstance(result, dict)`
branch first, where `max()` over the empty key generator raises
`ValueError` (line 108) — `format_result({})` never reaches the
`result or "No data found."` fallback.  Falsy non-dict results (the empty
string, `None`) do return the literal `"No data found."`. -/
theorem format_result_empty_and_falsy :
    format_result (.rdict []) = .error "ValueError: max() arg is an empty sequence" ∧
    format_result (.rstr "") = .ok "No data found." ∧
    format_result .rnone = .ok "No data found." :=
  ⟨rfl, rfl, rfl⟩

/-! ## Claim C7 — the formatter on non-empty mappings -/

/-- C7 (counterexample): the claimed output for
`{"France": 1000, "USA": 500}` is off by one space: the code pads the key
(`"USA".ljust(6)` = `"USA   "`) and THEN appends `" : "`, so the `USA`
line carries four spaces before the colon, not three. -/
theorem format_result_example_cex :
    format_result (.rdict [(.s "France", 1000), (.s "USA", 500)]) ≠
      .ok "Results:\nFrance : 1000\nUSA   : 500" := by
  intro h
  rw [show format_result (.rdict [(.s "France", 1000), (.s "USA", 500)]) =
      .ok "Results:\nFrance : 1000\nUSA    : 500" from rfl] at h
  exact absurd (Except.ok.inj h) (by decide)

/-- C7 (amended): for `{"France": 1000, "USA": 500}` the output is
exactly `"Results:\nFrance : 1000\nUSA    : 500"` (each key padded to the
longest key's length, then `" : "` and the value); in general the entries
are rendered one per entry in stable descending value order. -/
theorem format_result_aligned_output :
    format_result (.rdict [(.s "France", 1000), (.s "USA", 500)]) =
      .ok "Results:\nFrance : 1000\nUSA    : 500" ∧
    (∀ d : DictResult,
      ((sortByValueDesc d).map (fun kv => kv.2)).Pairwise (fun a b => b ≤ a)) ∧
    (∀ d : DictResult, (sortByValueDesc d).length = d.length) := by
  refine ⟨rfl, fun d => ?_, fun d => sortByValueDesc_length d⟩
  rw [List.pairwise_map]
  exact sortByValueDesc_sorted d

/-! ## Claim C8 — logging -/

/-- C8 (counterexample): the log entry for `"sales by country"` records
`str(response)` — the Python repr of the raw dict — which differs from the
formatted string returned to the caller. -/
theorem log_records_raw_str_cex :
    (answer_query (execOf df0) groqStub [] "sales by country").2 =
      [⟨"sales by country", "\x7b'France': 100, 'USA': 1100\x7d"⟩] ∧
    (answer_query (execOf df0) groqStub [] "sales by country").1 =
      .ok "Results:\nUSA    : 1100\nFrance : 100" ∧
    ("\x7b'France': 100, 'USA': 1100\x7d" : String) ≠ "Results:\nUSA    : 1100\nFrance : 100" :=
  ⟨rfl, rfl, by decide⟩

/-- C8 (amended): every `answer_query` call appends exactly one entry,
whose `query` field is the normalized input and whose `response` field is
`str()` of the RAW result (not the formatted string); the append happens
BEFORE formatting — the equality is unconditional, so the entry is present
even when `format_result` raises. -/
theorem log_append_spec (exec : Exec) (groq : String → String)
    (log : List LogEntry) (q0 : String) :
    (answer_query exec groq log q0).2 =
      log ++ [⟨normalize q0, strOfResult (responseOf exec groq q0)⟩] ∧
    (answer_query exec groq log q0).2.length = log.length + 1 := by
  refine ⟨rfl, ?_⟩
  show (log ++ [_]).length = log.length + 1
  simp

/-! ## Claim C9 — `get_query_log` -/

/-- C9 (code bug): `__init__` never assigns `self.query_log` (despite its
own comment "Initialize query log as a DataFrame"), and nothing else does,
so every `get_query_log()` call raises `AttributeError` instead of
returning the rendered log or the sentinel.  The second conjunct shows the
sentinel the dead branch would produce had the attribute existed empty. -/
theorem get_query_log_attribute_error :
    get_query_log init_query_log =
      .error "AttributeError: 'AdvancedRAGPipeline' object has no attribute 'query_log'" ∧
    get_query_log (some []) = .ok "timestamp,query,response\nNo queries logged yet." :=
  ⟨rfl, rfl⟩

/-! ## Claim C10 — `extract_year` -/

/-- C10: `extract_year` returns `some n` exactly when some position of
the query carries a word-boundary-delimited 4-digit `19xx`/`20xx` token,
`n` being the value of the LEFTMOST such token (no earlier position
matches); it returns `none` exactly when no position matches.  It is a
total function — it never raises. -/
theorem extract_year_leftmost (s : String) :
    (∀ n, extract_year s = some n →
      ∃ i, yearTokenAt s.data i = true ∧
        (∀ j, j < i → yearTokenAt s.data j = false) ∧
        n = yearValueAt s.data i) ∧
    (extract_year s = none → ∀ i, yearTokenAt s.data i = false) := by
  constructor
  · intro n h
    unfold extract_year firstYearIdx at h
    cases hf : firstYearIdxAux s.data 0 (s.data.length + 1) with
    | none => rw [hf] at h; simp at h
    | some i =>
        rw [hf] at h
        obtain ⟨_, hti, hmin⟩ := (firstYearIdxAux_spec s.data (s.data.length + 1) 0).1 i hf
        refine ⟨i, hti, fun j hj => hmin j (Nat.zero_le j) hj, ?_⟩
        simp only [Option.map_some'] at h
        injection h with h
        exact h.symm
  · intro h i
    unfold extract_year firstYearIdx at h
    cases hf : firstYearIdxAux s.data 0 (s.data.length + 1) with
    | some j => rw [hf] at h; simp at h
    | none =>
        by_cases hi : i < s.data.length + 1
        · exact (firstYearIdxAux_spec s.data (s.data.length + 1) 0).2 hf i
            (Nat.zero_le i) (by omega)
        · cases hv : yearTokenAt s.data i with
          | false => rfl
          | true => exact absurd (yearTokenAt_length hv) (by omega)

/-- C10 witness: in `"orders from 2003 and 1999"` the leftmost
word-boundary year token is `2003`, and `extract_year` returns it. -/
theorem extract_year_leftmost_witness :
    extract_year "orders from 2003 and 1999" = some 2003 ∧
    ∃ i, yearTokenAt (String.data "orders from 2003 and 1999") i = true ∧
      (∀ j, j < i → yearTokenAt (String.data "orders from 2003 and 1999") j = false) ∧
      2003 = yearValueAt (String.data "orders from 2003 and 1999") i :=
  ⟨rfl, (extract_year_leftmost "orders from 2003 and 1999").1 2003 rfl⟩

end RagApp
